import Mathlib

/-!
Verification of the Folding-Laundry-Robot safety core.

Shallow embedding of `src/python/safety.py`, `src/python/poses.py` and the
validation-calling portion of `src/python/robot_arm.py`.  Joint angles are
Python `int`s in the source (`Pose` dataclass annotations), embedded as `Int`.
The mutable statistics counters of `SafetyChecker` are embedded by explicit
state passing: each method that can mutate them takes the checker state and
returns the updated state alongside its result.
-/

namespace Laundry

/-- `Pose` dataclass of poses.py: five integer joint angles plus a name used
only for diagnostics. -/
structure Pose where
  name : String
  base : Int
  shoulder : Int
  elbow : Int
  wrist : Int
  gripper : Int
  deriving DecidableEq, Repr

/-- Joint angle limit constants of `SafetyChecker` (degrees). -/
def BASE_MIN : Int := 0
def BASE_MAX : Int := 180
def SHOULDER_MIN : Int := 15
def SHOULDER_MAX : Int := 165
def ELBOW_MIN : Int := 0
def ELBOW_MAX : Int := 180
def WRIST_MIN : Int := 0
def WRIST_MAX : Int := 180
def GRIPPER_MIN : Int := 10
def GRIPPER_MAX : Int := 90

/-- Maximum allowed change per transition (degrees). -/
def MAX_JOINT_CHANGE : Int := 90

/-- Kinematic link length constants (arbitrary units). -/
noncomputable def SHOULDER_LENGTH : ℝ := 10.0
noncomputable def ELBOW_LENGTH : ℝ := 8.0
noncomputable def WRIST_LENGTH : ℝ := 5.0

/-- `COLLISION_ZONES` of safety.py: tuples
`(shoulder_min, shoulder_max, elbow_min, elbow_max)`. -/
def COLLISION_ZONES : List (Int × Int × Int × Int) :=
  [(15, 40, 0, 30)]

/-- Mutable state of a `SafetyChecker` instance: the two statistics
counters set to 0 in `__init__`. -/
structure SafetyChecker where
  collision_count : Nat
  safety_violation_count : Nat
  deriving DecidableEq, Repr

/-- A freshly constructed `SafetyChecker` (`__init__`). -/
def SafetyChecker.init : SafetyChecker :=
  { collision_count := 0, safety_violation_count := 0 }

/-- `is_angle_in_range`: `min_val <= angle <= max_val`. -/
def is_angle_in_range (angle min_val max_val : Int) : Bool :=
  min_val ≤ angle && angle ≤ max_val

/-- `is_in_collision_zone`: iterate `COLLISION_ZONES`, return true on the
first zone containing both the shoulder and the elbow angle (inclusive). -/
def is_in_collision_zone (pose : Pose) : Bool :=
  go COLLISION_ZONES pose
where
  go : List (Int × Int × Int × Int) → Pose → Bool
  | [], _ => false
  | (shoulder_min, shoulder_max, elbow_min, elbow_max) :: zones, pose =>
      if shoulder_min ≤ pose.shoulder && pose.shoulder ≤ shoulder_max &&
         (elbow_min ≤ pose.elbow && pose.elbow ≤ elbow_max) then
        true
      else
        go zones pose

/-- `is_pose_safe`: five per-joint range checks in order base, shoulder,
elbow, wrist, gripper (each failure increments `safety_violation_count`
and returns false), then the collision-zone check (a hit increments
`collision_count` and returns false).  Returns the boolean result paired
with the updated checker state. -/
def is_pose_safe (self : SafetyChecker) (pose : Pose) : Bool × SafetyChecker :=
  if !is_angle_in_range pose.base BASE_MIN BASE_MAX then
    (false, { self with safety_violation_count := self.safety_violation_count + 1 })
  else if !is_angle_in_range pose.shoulder SHOULDER_MIN SHOULDER_MAX then
    (false, { self with safety_violation_count := self.safety_violation_count + 1 })
  else if !is_angle_in_range pose.elbow ELBOW_MIN ELBOW_MAX then
    (false, { self with safety_violation_count := self.safety_violation_count + 1 })
  else if !is_angle_in_range pose.wrist WRIST_MIN WRIST_MAX then
    (false, { self with safety_violation_count := self.safety_violation_count + 1 })
  else if !is_angle_in_range pose.gripper GRIPPER_MIN GRIPPER_MAX then
    (false, { self with safety_violation_count := self.safety_violation_count + 1 })
  else if is_in_collision_zone pose then
    (false, { self with collision_count := self.collision_count + 1 })
  else
    (true, self)

/-- `is_transition_safe`: absolute per-joint deltas; base, shoulder, elbow,
wrist are each checked against `MAX_JOINT_CHANGE` in that order, the gripper
delta is computed but never checked.  The method reads no counter and writes
no counter, so the checker state is returned unchanged. -/
def is_transition_safe (self : SafetyChecker) (current_pose target_pose : Pose) :
    Bool × SafetyChecker :=
  let base_change := |target_pose.base - current_pose.base|
  let shoulder_change := |target_pose.shoulder - current_pose.shoulder|
  let elbow_change := |target_pose.elbow - current_pose.elbow|
  let wrist_change := |target_pose.wrist - current_pose.wrist|
  let _gripper_change := |target_pose.gripper - current_pose.gripper|
  if base_change > MAX_JOINT_CHANGE then
    (false, self)
  else if shoulder_change > MAX_JOINT_CHANGE then
    (false, self)
  else if elbow_change > MAX_JOINT_CHANGE then
    (false, self)
  else if wrist_change > MAX_JOINT_CHANGE then
    (false, self)
  else
    (true, self)

/-- `math.radians`: degrees to radians. -/
noncomputable def radians (deg : Int) : ℝ :=
  (deg : ℝ) * Real.pi / 180

/-- `calculate_reach`: simplified 2D forward-kinematics reach estimate from
the shoulder and elbow angles and the fixed link lengths. -/
noncomputable def calculate_reach (pose : Pose) : ℝ :=
  let shoulder_rad := radians pose.shoulder
  let elbow_rad := radians pose.elbow
  let x := SHOULDER_LENGTH * Real.cos shoulder_rad +
    ELBOW_LENGTH * Real.cos (shoulder_rad + elbow_rad) + WRIST_LENGTH
  let y := SHOULDER_LENGTH * Real.sin shoulder_rad +
    ELBOW_LENGTH * Real.sin (shoulder_rad + elbow_rad)
  Real.sqrt (x ^ 2 + y ^ 2)

/-- The `EMERGENCY_LIMITS` dictionary of safety.py. -/
structure EmergencyLimits where
  max_speed : Int
  min_clearance : Int
  max_force : Int
  deriving DecidableEq, Repr

def EMERGENCY_LIMITS : EmergencyLimits :=
  { max_speed := 50, min_clearance := 5, max_force := 10 }

/-- A sensor snapshot: the `sensor_data` dictionary restricted to the three
keys `check_emergency_conditions` reads; `none` embeds an absent key. -/
structure SensorData where
  distance : Option Int
  force : Option Int
  temperature : Option Int
  deriving DecidableEq, Repr

/-- Temperature clause of `check_emergency_conditions` (reached when the
distance and force clauses did not return). -/
def check_temperature_condition (sensor_data : SensorData) : Bool × Option String :=
  match sensor_data.temperature with
  | some t =>
      if t > 70 then (false, some s!"Motor overheating: {t}°C")
      else (true, none)
  | none => (true, none)

/-- Force clause of `check_emergency_conditions` followed by the
temperature clause. -/
def check_force_condition (sensor_data : SensorData) : Bool × Option String :=
  match sensor_data.force with
  | some f =>
      if f > EMERGENCY_LIMITS.max_force then
        (false, some s!"Excessive force detected: {f}N")
      else check_temperature_condition sensor_data
  | none => check_temperature_condition sensor_data

/-- `check_emergency_conditions`: the distance, force and temperature clauses
in source order; an absent key skips its clause. -/
def check_emergency_conditions (sensor_data : SensorData) : Bool × Option String :=
  match sensor_data.distance with
  | some d =>
      if d < EMERGENCY_LIMITS.min_clearance then
        (false, some s!"Obstacle detected at {d}cm")
      else check_force_condition sensor_data
  | none => check_force_condition sensor_data

/-- A Python runtime value passed as a joint argument to the `Pose`
constructor; Python performs no static check, so any of these may arrive. -/
inductive PyValue where
  | intV : Int → PyValue
  | strV : String → PyValue
  | noneV : PyValue
  deriving DecidableEq, Repr

/-- Whether a Python value is numeric. -/
def PyValue.isNumeric : PyValue → Bool
  | intV _ => true
  | strV _ => false
  | noneV => false

/-- A `Pose` as the `@dataclass`-generated constructor actually stores it:
the joint fields hold whatever runtime values were supplied. -/
structure DynPose where
  name : PyValue
  base : PyValue
  shoulder : PyValue
  elbow : PyValue
  wrist : PyValue
  gripper : PyValue
  deriving DecidableEq, Repr

/-- The `__init__` generated by `@dataclass` for `Pose` in poses.py: every
field is a required argument (a call with a missing argument raises
`TypeError`), and the supplied values are assigned to the fields with no
type or numeric check of any kind.  `none` embeds an argument missing at the
call site. -/
def poseDataclassInit (name base shoulder elbow wrist gripper : Option PyValue) :
    Except String DynPose :=
  match name, base, shoulder, elbow, wrist, gripper with
  | some n, some b, some s, some e, some w, some g =>
      Except.ok { name := n, base := b, shoulder := s, elbow := e, wrist := w, gripper := g }
  | _, _, _, _, _, _ =>
      Except.error "TypeError: missing required positional argument"

/-- Serial write made during `move_to_pose` dispatch, in order:
`send_command` bytes and raw `serial_conn.write` payloads. -/
def dispatch_commands (pose : Pose) : List String :=
  ["m",
   "b", toString pose.base, "\n",
   "s", toString pose.shoulder, "\n",
   "e", toString pose.elbow, "\n",
   "w", toString pose.wrist, "\n",
   "x"]

/-- State of a `RobotArm` controller relevant to `move_to_pose`. -/
structure RobotArm where
  is_connected : Bool
  safety_checker : SafetyChecker
  current_pose : Option Pose
  deriving DecidableEq, Repr

/-- `move_to_pose` of robot_arm.py.  The serial transport is embedded by the
oracle `transport_ok`: the number of serial writes that succeed before the
first raised exception (a value at least `(dispatch_commands pose).length`
means the whole dispatch completes).  Returns the boolean result, the updated
controller state, and the list of serial writes actually performed. -/
def move_to_pose (arm : RobotArm) (pose : Pose) (transport_ok : Nat) :
    Bool × RobotArm × List String :=
  if !arm.is_connected then
    (false, arm, [])
  else
    let pose_check := is_pose_safe arm.safety_checker pose
    let arm1 : RobotArm := { arm with safety_checker := pose_check.2 }
    if !pose_check.1 then
      (false, arm1, [])
    else
      let transition_ok :=
        match arm.current_pose with
        | some cp => (is_transition_safe pose_check.2 cp pose).1
        | none => true
      if !transition_ok then
        (false, arm1, [])
      else
        let cmds := dispatch_commands pose
        if cmds.length ≤ transport_ok then
          (true, { arm1 with current_pose := some pose }, cmds)
        else
          (false, arm1, cmds.take transport_ok)

/-! ## Theorems -/

/-- C1: `is_pose_safe` returns true iff every joint lies within its
configured inclusive range (base `[0,180]`, shoulder `[15,165]`, elbow
`[0,180]`, wrist `[0,180]`, gripper `[10,90]`) and the pose is not in any
collision zone; in particular a joint exactly at its min or max passes. -/
theorem is_pose_safe_true_iff (self : SafetyChecker) (pose : Pose) :
    (is_pose_safe self pose).1 = true ↔
      (0 ≤ pose.base ∧ pose.base ≤ 180) ∧
      (15 ≤ pose.shoulder ∧ pose.shoulder ≤ 165) ∧
      (0 ≤ pose.elbow ∧ pose.elbow ≤ 180) ∧
      (0 ≤ pose.wrist ∧ pose.wrist ≤ 180) ∧
      (10 ≤ pose.gripper ∧ pose.gripper ≤ 90) ∧
      is_in_collision_zone pose = false := by
  unfold is_pose_safe
  split_ifs with h1 h2 h3 h4 h5 h6 <;>
    simp_all [is_angle_in_range, BASE_MIN, BASE_MAX, SHOULDER_MIN, SHOULDER_MAX,
      ELBOW_MIN, ELBOW_MAX, WRIST_MIN, WRIST_MAX, GRIPPER_MIN, GRIPPER_MAX] <;>
    intros <;> omega

/-- All five per-joint range checks of `is_pose_safe` pass. -/
def all_joints_in_range (pose : Pose) : Bool :=
  is_angle_in_range pose.base BASE_MIN BASE_MAX &&
  is_angle_in_range pose.shoulder SHOULDER_MIN SHOULDER_MAX &&
  is_angle_in_range pose.elbow ELBOW_MIN ELBOW_MAX &&
  is_angle_in_range pose.wrist WRIST_MIN WRIST_MAX &&
  is_angle_in_range pose.gripper GRIPPER_MIN GRIPPER_MAX

/-- C2: a call to `is_pose_safe` that fails a per-joint range check
increments `safety_violation_count` by exactly one and leaves
`collision_count` unchanged (even when the pose is also in a collision
zone, showing the collision check is not consulted); a call that passes
all five range checks but hits a collision zone increments
`collision_count` by exactly one and leaves `safety_violation_count`
unchanged; a call that returns true changes neither counter. -/
theorem is_pose_safe_counter_effects (self : SafetyChecker) (pose : Pose) :
    (all_joints_in_range pose = false →
      (is_pose_safe self pose).2.safety_violation_count = self.safety_violation_count + 1 ∧
      (is_pose_safe self pose).2.collision_count = self.collision_count) ∧
    (all_joints_in_range pose = true → is_in_collision_zone pose = true →
      (is_pose_safe self pose).2.collision_count = self.collision_count + 1 ∧
      (is_pose_safe self pose).2.safety_violation_count = self.safety_violation_count) ∧
    ((is_pose_safe self pose).1 = true → (is_pose_safe self pose).2 = self) := by
  unfold is_pose_safe all_joints_in_range
  split_ifs with h1 h2 h3 h4 h5 h6 <;> simp_all

/-- C2 witness: a pose with `base = -1` and a zone hit (`shoulder = 20`,
`elbow = 10`) raises `safety_violation_count` from 0 to 1 and leaves
`collision_count` at 0. -/
theorem is_pose_safe_counter_effects_witness :
    (is_pose_safe SafetyChecker.init
        { name := "bad", base := -1, shoulder := 20, elbow := 10, wrist := 90,
          gripper := 10 }).2.safety_violation_count = 0 + 1 ∧
    (is_pose_safe SafetyChecker.init
        { name := "bad", base := -1, shoulder := 20, elbow := 10, wrist := 90,
          gripper := 10 }).2.collision_count = 0 :=
  (is_pose_safe_counter_effects SafetyChecker.init
    { name := "bad", base := -1, shoulder := 20, elbow := 10, wrist := 90,
      gripper := 10 }).1 (by decide)

/-- C3: `is_transition_safe` returns true iff the absolute deltas of base,
shoulder, elbow and wrist are each at most `MAX_JOINT_CHANGE = 90` (a delta
of exactly 90 is legal); the gripper delta never appears in the condition;
and the checker state (both counters) is returned unchanged. -/
theorem is_transition_safe_true_iff (self : SafetyChecker)
    (current_pose target_pose : Pose) :
    ((is_transition_safe self current_pose target_pose).1 = true ↔
      |target_pose.base - current_pose.base| ≤ 90 ∧
      |target_pose.shoulder - current_pose.shoulder| ≤ 90 ∧
      |target_pose.elbow - current_pose.elbow| ≤ 90 ∧
      |target_pose.wrist - current_pose.wrist| ≤ 90) ∧
    (is_transition_safe self current_pose target_pose).2 = self := by
  simp only [is_transition_safe]
  split_ifs with h1 h2 h3 h4 <;> simp_all [MAX_JOINT_CHANGE]

/-- C10: `is_transition_safe` is symmetric in its two pose arguments, both
in the returned boolean and in the returned state, because each per-joint
delta is an absolute value. -/
theorem is_transition_safe_symm (self : SafetyChecker) (a b : Pose) :
    is_transition_safe self a b = is_transition_safe self b a := by
  unfold is_transition_safe
  rw [abs_sub_comm a.base b.base, abs_sub_comm a.shoulder b.shoulder,
    abs_sub_comm a.elbow b.elbow, abs_sub_comm a.wrist b.wrist]

/-- C4 counterexample: a transition rejected for a wrist delta of 91
(home pose to a pose with `wrist = 181`) returns false yet increments
neither counter, refuting the claim that every rejected transition
strictly increases one of the statistics counters. -/
theorem rejected_transition_leaves_counters :
    ¬ ((is_transition_safe SafetyChecker.init
          { name := "home", base := 90, shoulder := 90, elbow := 90, wrist := 90,
            gripper := 10 }
          { name := "far", base := 90, shoulder := 90, elbow := 90, wrist := 181,
            gripper := 10 }).1 = false →
        SafetyChecker.init.collision_count <
          (is_transition_safe SafetyChecker.init
            { name := "home", base := 90, shoulder := 90, elbow := 90, wrist := 90,
              gripper := 10 }
            { name := "far", base := 90, shoulder := 90, elbow := 90, wrist := 181,
              gripper := 10 }).2.collision_count ∨
        SafetyChecker.init.safety_violation_count <
          (is_transition_safe SafetyChecker.init
            { name := "home", base := 90, shoulder := 90, elbow := 90, wrist := 90,
              gripper := 10 }
            { name := "far", base := 90, shoulder := 90, elbow := 90, wrist := 181,
              gripper := 10 }).2.safety_violation_count) := by
  decide

/-- C4 amended: every call to `is_pose_safe` that returns false strictly
increases one of the two statistics counters, but a rejected transition
does not: `is_transition_safe` always returns the counters unchanged. -/
theorem rejection_counter_accounting (self : SafetyChecker) (pose a b : Pose) :
    ((is_pose_safe self pose).1 = false →
      self.collision_count < (is_pose_safe self pose).2.collision_count ∨
      self.safety_violation_count < (is_pose_safe self pose).2.safety_violation_count) ∧
    (is_transition_safe self a b).2 = self := by
  constructor
  · intro hfail
    unfold is_pose_safe at hfail ⊢
    split_ifs at hfail ⊢ <;> simp_all
  · simp only [is_transition_safe]
    split_ifs <;> rfl

/-- C4 amended witness: a pose with `base = -1` is rejected and the
safety-violation counter strictly increases from 0. -/
theorem rejection_counter_accounting_witness :
    SafetyChecker.init.collision_count <
      (is_pose_safe SafetyChecker.init
        { name := "bad", base := -1, shoulder := 90, elbow := 90, wrist := 90,
          gripper := 10 }).2.collision_count ∨
    SafetyChecker.init.safety_violation_count <
      (is_pose_safe SafetyChecker.init
        { name := "bad", base := -1, shoulder := 90, elbow := 90, wrist := 90,
          gripper := 10 }).2.safety_violation_count :=
  (rejection_counter_accounting SafetyChecker.init
    { name := "bad", base := -1, shoulder := 90, elbow := 90, wrist := 90, gripper := 10 }
    { name := "bad", base := -1, shoulder := 90, elbow := 90, wrist := 90, gripper := 10 }
    { name := "bad", base := -1, shoulder := 90, elbow := 90, wrist := 90, gripper := 10 }).1
    (by decide)

/-- C6: `is_in_collision_zone` returns true iff some configured zone
contains both the shoulder and the elbow angle (inclusive bounds); it
returns false on the empty zone list; and its result depends only on the
shoulder and elbow fields of the pose. -/
theorem is_in_collision_zone_characterization (pose : Pose) :
    (is_in_collision_zone pose = true ↔
      ∃ z ∈ COLLISION_ZONES,
        z.1 ≤ pose.shoulder ∧ pose.shoulder ≤ z.2.1 ∧
        z.2.2.1 ≤ pose.elbow ∧ pose.elbow ≤ z.2.2.2) ∧
    is_in_collision_zone.go [] pose = false ∧
    (∀ q : Pose, q.shoulder = pose.shoulder → q.elbow = pose.elbow →
      is_in_collision_zone q = is_in_collision_zone pose) := by
  refine ⟨?_, rfl, ?_⟩
  · unfold is_in_collision_zone COLLISION_ZONES
    simp only [is_in_collision_zone.go]
    split_ifs with h <;> simp_all
  · intro q hs he
    unfold is_in_collision_zone COLLISION_ZONES
    simp only [is_in_collision_zone.go, hs, he]

/-- C6 witness: the pose `shoulder = 20`, `elbow = 10` lies in the single
configured zone `(15, 40, 0, 30)`, and changing only base, wrist and
gripper does not alter the collision verdict. -/
theorem is_in_collision_zone_characterization_witness :
    is_in_collision_zone
        { name := "q", base := 0, shoulder := 20, elbow := 10, wrist := 0,
          gripper := 90 } =
      is_in_collision_zone
        { name := "p", base := 90, shoulder := 20, elbow := 10, wrist := 90,
          gripper := 10 } :=
  (is_in_collision_zone_characterization
    { name := "p", base := 90, shoulder := 20, elbow := 10, wrist := 90,
      gripper := 10 }).2.2
    { name := "q", base := 0, shoulder := 20, elbow := 10, wrist := 0, gripper := 90 }
    rfl rfl

/-- C7: `check_emergency_conditions` returns safe exactly when no present
reading violates its threshold (distance at least 5, force at most 10,
temperature at most 70; an absent key never violates); a safe result
carries no reason; a violating distance reading returns immediately with
the obstacle message; a violating force reading, when the distance clause
did not fire, returns the force message before temperature is consulted;
and a violating temperature reading, when neither earlier clause fired,
returns the overheating message. -/
theorem check_emergency_conditions_characterization (sensor_data : SensorData) :
    ((check_emergency_conditions sensor_data).1 = true ↔
      (∀ d, sensor_data.distance = some d → 5 ≤ d) ∧
      (∀ f, sensor_data.force = some f → f ≤ 10) ∧
      (∀ t, sensor_data.temperature = some t → t ≤ 70)) ∧
    ((check_emergency_conditions sensor_data).1 = true →
      (check_emergency_conditions sensor_data).2 = none) ∧
    (∀ d, sensor_data.distance = some d → d < 5 →
      check_emergency_conditions sensor_data =
        (false, some s!"Obstacle detected at {d}cm")) ∧
    (∀ f, (∀ d, sensor_data.distance = some d → 5 ≤ d) →
      sensor_data.force = some f → 10 < f →
      check_emergency_conditions sensor_data =
        (false, some s!"Excessive force detected: {f}N")) ∧
    (∀ t, (∀ d, sensor_data.distance = some d → 5 ≤ d) →
      (∀ f, sensor_data.force = some f → f ≤ 10) →
      sensor_data.temperature = some t → 70 < t →
      check_emergency_conditions sensor_data =
        (false, some s!"Motor overheating: {t}°C")) := by
  obtain ⟨d, f, t⟩ := sensor_data
  cases d <;> cases f <;> cases t <;>
    simp only [check_emergency_conditions, check_force_condition,
      check_temperature_condition, EMERGENCY_LIMITS] <;>
    (try split_ifs) <;> simp_all

/-- C7 witness: the empty snapshot is safe with no reason, and a snapshot
with `distance = 2` is rejected with a message mentioning 2. -/
theorem check_emergency_conditions_characterization_witness :
    check_emergency_conditions
        { distance := some 2, force := none, temperature := none } =
      (false, some "Obstacle detected at 2cm") ∧
    (check_emergency_conditions
        { distance := none, force := none, temperature := none }).1 = true :=
  ⟨(check_emergency_conditions_characterization
      { distance := some 2, force := none, temperature := none }).2.2.1
      2 rfl (by decide),
   ((check_emergency_conditions_characterization
      { distance := none, force := none, temperature := none }).1).2
      ⟨fun d h => by simp at h, fun f h => by simp at h, fun t h => by simp at h⟩⟩

/-- C8: `calculate_reach` is a pure function of the shoulder and elbow
angles only (two poses agreeing on those agree on reach, whatever their
base, wrist, gripper and name), and it equals
`sqrt(x^2 + y^2)` with `x = 10*cos(s) + 8*cos(s+e) + 5` and
`y = 10*sin(s) + 8*sin(s+e)`, the angles converted to radians. -/
theorem calculate_reach_pure (p q : Pose)
    (hs : p.shoulder = q.shoulder) (he : p.elbow = q.elbow) :
    calculate_reach p = calculate_reach q ∧
    calculate_reach p =
      Real.sqrt
        ((10 * Real.cos (radians p.shoulder) +
            8 * Real.cos (radians p.shoulder + radians p.elbow) + 5) ^ 2 +
         (10 * Real.sin (radians p.shoulder) +
            8 * Real.sin (radians p.shoulder + radians p.elbow)) ^ 2) := by
  constructor
  · simp only [calculate_reach, hs, he]
  · simp only [calculate_reach, SHOULDER_LENGTH, ELBOW_LENGTH, WRIST_LENGTH]
    norm_num

/-- C8 witness: two poses with shoulder 90 and elbow 90 but different
base, wrist, gripper and name have equal reach. -/
theorem calculate_reach_pure_witness :
    calculate_reach
        { name := "a", base := 0, shoulder := 90, elbow := 90, wrist := 0,
          gripper := 10 } =
      calculate_reach
        { name := "b", base := 180, shoulder := 90, elbow := 90, wrist := 180,
          gripper := 90 } :=
  (calculate_reach_pure
    { name := "a", base := 0, shoulder := 90, elbow := 90, wrist := 0, gripper := 10 }
    { name := "b", base := 180, shoulder := 90, elbow := 90, wrist := 180, gripper := 90 }
    rfl rfl).1

/-- C9: the `@dataclass`-generated `Pose` constructor accepts a non-numeric
joint value without error (the resulting object carries a non-numeric base
that can reach the validation checks), while a missing argument does raise
`TypeError`; this contradicts the claim that any non-numeric joint value
fails at construction time. -/
theorem pose_constructor_accepts_non_numeric :
    poseDataclassInit (some (PyValue.strV "broken")) (some (PyValue.strV "oops"))
        (some (PyValue.intV 90)) (some (PyValue.intV 90)) (some (PyValue.intV 90))
        (some (PyValue.intV 10)) =
      Except.ok
        { name := PyValue.strV "broken", base := PyValue.strV "oops",
          shoulder := PyValue.intV 90, elbow := PyValue.intV 90,
          wrist := PyValue.intV 90, gripper := PyValue.intV 10 } ∧
    PyValue.isNumeric (PyValue.strV "oops") = false ∧
    poseDataclassInit (some (PyValue.strV "x")) none (some (PyValue.intV 90))
        (some (PyValue.intV 90)) (some (PyValue.intV 90)) (some (PyValue.intV 10)) =
      Except.error "TypeError: missing required positional argument" :=
  ⟨rfl, rfl, rfl⟩

/-- C5: `move_to_pose` sets `current_pose` to the target only when it
returns true, which requires the arm to be connected, the pose check to
pass, the transition check (against any existing current pose) to pass,
and the full command dispatch to complete; every false return leaves
`current_pose` unchanged; and when the pose check or the transition check
fails, no serial command at all is sent. -/
theorem move_to_pose_state_effects (arm : RobotArm) (pose : Pose) (transport_ok : Nat) :
    ((move_to_pose arm pose transport_ok).1 = true →
      (move_to_pose arm pose transport_ok).2.1.current_pose = some pose ∧
      arm.is_connected = true ∧
      (is_pose_safe arm.safety_checker pose).1 = true ∧
      (∀ cp, arm.current_pose = some cp →
        (is_transition_safe (is_pose_safe arm.safety_checker pose).2 cp pose).1 = true) ∧
      (dispatch_commands pose).length ≤ transport_ok ∧
      (move_to_pose arm pose transport_ok).2.2 = dispatch_commands pose) ∧
    ((move_to_pose arm pose transport_ok).1 = false →
      (move_to_pose arm pose transport_ok).2.1.current_pose = arm.current_pose) ∧
    ((is_pose_safe arm.safety_checker pose).1 = false →
      (move_to_pose arm pose transport_ok).2.2 = []) ∧
    (∀ cp, arm.current_pose = some cp →
      (is_transition_safe (is_pose_safe arm.safety_checker pose).2 cp pose).1 = false →
      (move_to_pose arm pose transport_ok).2.2 = []) := by
  simp only [move_to_pose]
  by_cases hc : arm.is_connected
  · simp only [hc, Bool.not_true, Bool.false_eq_true, if_false]
    by_cases hp : (is_pose_safe arm.safety_checker pose).1
    · simp only [hp, Bool.not_true, Bool.false_eq_true, if_false]
      cases hcp : arm.current_pose with
      | none =>
          simp only [hcp]
          split_ifs with hlen <;> simp_all
      | some cp =>
          simp only [hcp]
          by_cases ht : (is_transition_safe (is_pose_safe arm.safety_checker pose).2 cp pose).1 <;>
            simp only [ht] <;> split_ifs with hlen <;> simp_all
    · simp only [Bool.not_eq_true] at hp
      simp_all
  · simp only [Bool.not_eq_true] at hc
    simp_all

/-- C5 witness: from a connected arm with no current pose, moving to the
home pose with a transport that completes all 14 writes succeeds, records
the home pose, and sends the full command list. -/
theorem move_to_pose_state_effects_witness :
    (move_to_pose
        { is_connected := true, safety_checker := SafetyChecker.init,
          current_pose := none }
        { name := "home", base := 90, shoulder := 90, elbow := 90, wrist := 90,
          gripper := 10 } 14).2.1.current_pose =
      some
        { name := "home", base := 90, shoulder := 90, elbow := 90, wrist := 90,
          gripper := 10 } :=
  ((move_to_pose_state_effects
      { is_connected := true, safety_checker := SafetyChecker.init,
        current_pose := none }
      { name := "home", base := 90, shoulder := 90, elbow := 90, wrist := 90,
        gripper := 10 } 14).1 (by decide)).1

end Laundry
